import Mathlib

/-!
Shallow embedding of the exa-js client library
(src/packages/exa-js/lib/index.ts).

The library is a stateless HTTP client: each public operation builds a JSON
request body, dispatches it with a fixed header set, and translates the
response.  Request bodies are JavaScript objects built with object literals
and spread syntax, so we model JSON values and JavaScript object semantics
(insertion-ordered fields, later spread entries overriding earlier keys,
truthiness) explicitly, and each operation as a pure function from its
arguments to the outgoing request, with the HTTP transport abstracted as a
function from requests to responses.
-/

/-- Model of a parsed JSON value (also used for the runtime value of any
JavaScript object field that appears in a request body). Numbers are modelled
as integers: every numeric field the claims exercise is an integer. -/
inductive JsonValue where
  | null : JsonValue
  | bool : Bool → JsonValue
  | num : Int → JsonValue
  | str : String → JsonValue
  | arr : List JsonValue → JsonValue
  | obj : List (String × JsonValue) → JsonValue
deriving Repr, BEq

/-- A JavaScript object as an insertion-ordered list of key-value fields.
A runtime object never holds two fields with the same key. -/
abbrev JsObject := List (String × JsonValue)

/-- JavaScript truthiness of a value: null, false, 0 and the empty string are
falsy; every array and every object (even empty) is truthy. -/
def truthy : JsonValue → Bool
  | JsonValue.null => false
  | JsonValue.bool b => b
  | JsonValue.num n => n != 0
  | JsonValue.str s => s != ""
  | JsonValue.arr _ => true
  | JsonValue.obj _ => true

/-- Truthiness of a possibly-absent value: an absent field reads as undefined,
which is falsy. -/
def optTruthy : Option JsonValue → Bool
  | some v => truthy v
  | none => false

/-- Reading a property of an object: the first field with the given key, or
none (undefined) when no field has it. -/
def lookupField : JsObject → String → Option JsonValue
  | [], _ => none
  | (k, v) :: rest, key => if k == key then some v else lookupField rest key

/-- Whether an object has a field with the given key. -/
def hasField (o : JsObject) (key : String) : Bool :=
  o.any (fun p => p.1 == key)

/-- Writing one field during object-literal evaluation: an existing key is
overwritten in place (keeping its position), a new key is appended. -/
def setField (o : JsObject) (key : String) (v : JsonValue) : JsObject :=
  if hasField o key then
    o.map (fun p => if p.1 == key then (key, v) else p)
  else o ++ [(key, v)]

/-- Spreading an object into an object literal that already holds the fields
of o: each spread field is written in order, later keys overriding earlier
ones, exactly as JavaScript spread syntax does. -/
def spreadInto (o : JsObject) (extra : JsObject) : JsObject :=
  extra.foldl (fun acc p => setField acc p.1 p.2) o

/-- Rest element of a destructuring pattern: the object with the named keys
removed. -/
def removeFields (o : JsObject) (keys : List String) : JsObject :=
  o.filter (fun p => !(keys.contains p.1))

/-- Whether the keys of a field list are pairwise distinct, as the field list
of a runtime JavaScript object always is. -/
def nodupKeys : JsObject → Bool
  | [] => true
  | (k, _) :: rest => !(rest.any (fun p => p.1 == k)) && nodupKeys rest

/-- Conditional shorthand-field spread, modelling the idiom
spread of (cond question-mark singleton-object colon empty-object): the field
is included exactly when its value is truthy. -/
def truthyEntry (key : String) : Option JsonValue → JsObject
  | some v => if truthy v then [(key, v)] else []
  | none => []

mutual
/-- JavaScript string conversion of a value, as template-literal interpolation
performs it: strings verbatim, numbers and booleans printed, null prints as
the word null, objects as the tag string, arrays joined with commas. -/
def interpolate : JsonValue → String
  | JsonValue.null => "null"
  | JsonValue.bool b => cond b "true" "false"
  | JsonValue.num n => toString n
  | JsonValue.str s => s
  | JsonValue.arr xs => interpolateList xs
  | JsonValue.obj _ => "[object Object]"

/-- Array-join string conversion: elements separated by commas, with null
elements contributing the empty string. -/
def interpolateList : List JsonValue → String
  | [] => ""
  | [x] => interpolateElem x
  | x :: y :: rest => interpolateElem x ++ "," ++ interpolateList (y :: rest)

/-- One array element under string conversion: null becomes empty. -/
def interpolateElem : JsonValue → String
  | JsonValue.null => ""
  | v => interpolate v
end

/-- Interpolation of a possibly-absent value: an absent value is undefined and
prints as the word undefined. -/
def interpolateOpt : Option JsonValue → String
  | none => "undefined"
  | some v => interpolate v

/-- Modelled from the spec: the constants module (exa.constants) imported by
the client is not among the provided sources. The spec says the base URL
defaults to the production endpoint of the service; no claim depends on the
concrete value. -/
def constantsBaseUrl : String := "https://api.exa.ai"

/-- Modelled from the spec: the fixed content-type constant from the missing
constants module; no claim depends on the concrete value. -/
def constantsContentType : String := "application/json"

/-- Modelled from the spec: the fixed user-agent constant from the missing
constants module; no claim depends on the concrete value. -/
def constantsUserAgent : String := "exa-node"

/-- Modelled from the spec: the search endpoint path from the missing
constants module; no claim depends on the concrete value. -/
def constantsEndpointSearch : String := "/search"

/-- Modelled from the spec: the similarity endpoint path from the missing
constants module; no claim depends on the concrete value. -/
def constantsEndpointSimilar : String := "/findSimilar"

/-- Modelled from the spec: the contents endpoint path from the missing
constants module; no claim depends on the concrete value. -/
def constantsEndpointContents : String := "/contents"

/-- The header set the constructor builds: the API-key header, the fixed
content-type and the fixed user-agent. -/
structure ExaHeaders where
  xApiKey : String
  contentType : String
  userAgent : String
deriving Repr, BEq

/-- The client object: the stored base URL and the stored header set, both
fixed at construction. -/
structure Exa where
  baseURL : String
  headers : ExaHeaders
deriving Repr, BEq

/-- The configuration-error message thrown by the constructor. -/
def apiKeyErrorMessage : String :=
  "API key must be provided as an argument or as an environment variable (EXASEARCH_API_KEY)"

/-- The input-error message thrown by getContents on an empty input. -/
def emptyIdsErrorMessage : String := "Must provide at least one ID"

/-- The JavaScript or-operator on possibly-undefined strings: the left operand
when it is truthy (present and non-empty), otherwise the right operand. -/
def jsOrString : Option String → Option String → Option String
  | some s, b => if s == "" then b else some s
  | none, b => b

/-- The Exa constructor. The apiKey argument falls back through the
or-operator to the EXASEARCH_API_KEY environment variable (passed here
explicitly as envApiKey); a falsy result (absent, or the empty string) throws
the configuration error, otherwise the header set is built and stored with
the base URL. -/
def mkExa (apiKey : Option String) (envApiKey : Option String)
    (baseURL : String) : Except String Exa :=
  match jsOrString apiKey envApiKey with
  | none => Except.error apiKeyErrorMessage
  | some k =>
    if k == "" then Except.error apiKeyErrorMessage
    else Except.ok ⟨baseURL, ⟨k, constantsContentType, constantsUserAgent⟩⟩

/-- An outgoing HTTP request as the private request method assembles it: the
concatenated URL, the method, the stored headers, and the optional JSON body
(kept structured here; serialization is injective on this model). -/
structure HttpRequest where
  url : String
  method : String
  headers : ExaHeaders
  body : Option JsObject
deriving Repr, BEq

/-- An HTTP response as the client consumes it: the ok flag (success status),
the numeric status code, and the parsed JSON body. -/
structure HttpResponse where
  ok : Bool
  status : Nat
  body : JsonValue
deriving Repr, BEq

/-- The transport underneath the client: given the assembled request, it
produces the response. Cancellation, retries and timeouts live below this
boundary and are not modelled, as the client adds none. -/
abbrev Transport := HttpRequest → HttpResponse

/-- Reading the error property of the parsed failure body, as the failure
branch of the request method does. Property access on a non-object yields
undefined, except on null, where JavaScript throws a TypeError (that path
escapes as a transport-level failure). -/
def readErrorField : JsonValue → Except String (Option JsonValue)
  | JsonValue.null => Except.error "TypeError: cannot read properties of null"
  | JsonValue.obj fields => Except.ok (lookupField fields "error")
  | _ => Except.ok none

/-- Response handling of the private request method: a non-ok response throws
an error built from the status code and the error field of the parsed body; an
ok response resolves to its parsed body unchanged. -/
def handleResponse (resp : HttpResponse) : Except String JsonValue :=
  if resp.ok then Except.ok resp.body
  else
    match readErrorField resp.body with
    | Except.error e => Except.error e
    | Except.ok message =>
      Except.error
        ("Request failed with status " ++ toString resp.status ++ ". "
          ++ interpolateOpt message)

/-- Request assembly of the private request method: base URL plus endpoint,
the stored headers, and the body. -/
def mkRequest (e : Exa) (endpoint method : String) (body : Option JsObject) :
    HttpRequest :=
  ⟨e.baseURL ++ endpoint, method, e.headers, body⟩

/-- The body of search: the object literal holding the query followed by the
spread of the options (an omitted options argument spreads as the empty
object). -/
def searchBody (query : String) (options : JsObject) : JsObject :=
  spreadInto [("query", JsonValue.str query)] options

/-- The outgoing request of search. -/
def Exa.searchRequest (e : Exa) (query : String) (options : JsObject) :
    HttpRequest :=
  mkRequest e constantsEndpointSearch "POST" (some (searchBody query options))

/-- The search operation: one POST to the search endpoint, response handled by
the shared request method. -/
def Exa.search (e : Exa) (query : String) (options : JsObject)
    (transport : Transport) : Except String JsonValue :=
  handleResponse (transport (e.searchRequest query options))

/-- The body of findSimilar: the object literal holding the url followed by
the spread of the options. -/
def findSimilarBody (url : String) (options : JsObject) : JsObject :=
  spreadInto [("url", JsonValue.str url)] options

/-- The outgoing request of findSimilar. -/
def Exa.findSimilarRequest (e : Exa) (url : String) (options : JsObject) :
    HttpRequest :=
  mkRequest e constantsEndpointSimilar "POST"
    (some (findSimilarBody url options))

/-- The findSimilar operation: one POST to the similarity endpoint. -/
def Exa.findSimilar (e : Exa) (url : String) (options : JsObject)
    (transport : Transport) : Except String JsonValue :=
  handleResponse (transport (e.findSimilarRequest url options))

/-- The contents object of the two and-contents operations: when neither the
destructured text nor the destructured highlights value is truthy, the default
object with the text flag set to true; otherwise the object holding exactly
the truthy ones of the two. -/
def contentsObject (text highlights : Option JsonValue) : JsonValue :=
  if !optTruthy text && !optTruthy highlights then
    JsonValue.obj [("text", JsonValue.bool true)]
  else
    JsonValue.obj (truthyEntry "text" text ++ truthyEntry "highlights" highlights)

/-- The body of searchAndContents: the options are destructured into the text
field, the highlights field and the rest; the literal holds the query, the
contents object built from the two destructured fields, and then spreads the
rest. -/
def searchAndContentsBody (query : String) (options : JsObject) : JsObject :=
  spreadInto
    [("query", JsonValue.str query),
     ("contents",
       contentsObject (lookupField options "text")
         (lookupField options "highlights"))]
    (removeFields options ["text", "highlights"])

/-- The outgoing request of searchAndContents. -/
def Exa.searchAndContentsRequest (e : Exa) (query : String)
    (options : JsObject) : HttpRequest :=
  mkRequest e constantsEndpointSearch "POST"
    (some (searchAndContentsBody query options))

/-- The searchAndContents operation: one POST to the search endpoint. -/
def Exa.searchAndContents (e : Exa) (query : String) (options : JsObject)
    (transport : Transport) : Except String JsonValue :=
  handleResponse (transport (e.searchAndContentsRequest query options))

/-- The body of findSimilarAndContents: identical content splitting, keyed by
the url. -/
def findSimilarAndContentsBody (url : String) (options : JsObject) :
    JsObject :=
  spreadInto
    [("url", JsonValue.str url),
     ("contents",
       contentsObject (lookupField options "text")
         (lookupField options "highlights"))]
    (removeFields options ["text", "highlights"])

/-- The outgoing request of findSimilarAndContents. -/
def Exa.findSimilarAndContentsRequest (e : Exa) (url : String)
    (options : JsObject) : HttpRequest :=
  mkRequest e constantsEndpointSimilar "POST"
    (some (findSimilarAndContentsBody url options))

/-- The findSimilarAndContents operation: one POST to the similarity
endpoint. -/
def Exa.findSimilarAndContents (e : Exa) (url : String) (options : JsObject)
    (transport : Transport) : Except String JsonValue :=
  handleResponse (transport (e.findSimilarAndContentsRequest url options))

/-- A search result as the client sends it back into getContents: the title
(null allowed), the url, the optional published date, author and score, and
the identifier. The score, a JSON number, is kept as a JsonValue. -/
structure SearchResult where
  title : Option String
  url : String
  publishedDate : Option String
  author : Option String
  score : Option JsonValue
  id : String
deriving Repr, BEq

/-- The three well-typed shapes of the ids argument of getContents: one
identifier string, a list of identifier strings, or a list of prior search
results. -/
inductive IdsInput where
  | single : String → IdsInput
  | strList : List String → IdsInput
  | resultList : List SearchResult → IdsInput
deriving Repr, BEq

/-- The length property the emptiness check reads: the character count of a
string, the element count of either list shape. -/
def IdsInput.jsLength : IdsInput → Nat
  | IdsInput.single s => s.length
  | IdsInput.strList xs => xs.length
  | IdsInput.resultList xs => xs.length

/-- The shape-sniffing normalization of getContents, reached only after the
emptiness check: a string is wrapped in a singleton list, a string list passes
through, and a result list is mapped to the id fields of its elements in
order. -/
def IdsInput.normalize : IdsInput → List String
  | IdsInput.single s => [s]
  | IdsInput.strList xs => xs
  | IdsInput.resultList xs => xs.map (fun r => r.id)

/-- The body construction of getContents: the emptiness check throws the input
error before anything else; otherwise the literal holds the normalized ids and
spreads the options. -/
def getContentsBody (ids : IdsInput) (options : JsObject) :
    Except String JsObject :=
  if ids.jsLength == 0 then Except.error emptyIdsErrorMessage
  else
    Except.ok
      (spreadInto
        [("ids", JsonValue.arr (ids.normalize.map JsonValue.str))] options)

/-- The outgoing request of getContents, when the emptiness check passes. -/
def Exa.getContentsRequest (e : Exa) (ids : IdsInput) (options : JsObject) :
    Except String HttpRequest :=
  match getContentsBody ids options with
  | Except.error m => Except.error m
  | Except.ok body =>
    Except.ok (mkRequest e constantsEndpointContents "POST" (some body))

/-- The getContents operation: the input error propagates without the
transport ever being consulted; otherwise one POST to the contents
endpoint. -/
def Exa.getContents (e : Exa) (ids : IdsInput) (options : JsObject)
    (transport : Transport) : Except String JsonValue :=
  match e.getContentsRequest ids options with
  | Except.error m => Except.error m
  | Except.ok req => handleResponse (transport req)

/-- The field names of the RegularSearchOptions type: the base search options
plus the autoprompt flag and the type discriminator. -/
def regularSearchOptionKeys : List String :=
  ["numResults", "includeDomains", "excludeDomains", "startCrawlDate",
   "endCrawlDate", "startPublishedDate", "endPublishedDate", "category",
   "useAutoprompt", "type"]

/-- The field names of the FindSimilarOptions type: the base search options
plus the source-domain exclusion flag. -/
def findSimilarOptionKeys : List String :=
  ["numResults", "includeDomains", "excludeDomains", "startCrawlDate",
   "endCrawlDate", "startPublishedDate", "endPublishedDate", "category",
   "excludeSourceDomain"]

/-- The field names of the ContentsOptions type. -/
def contentsOptionKeys : List String := ["text", "highlights"]

/-- A runtime object is well typed against an option type when its keys are
pairwise distinct and each is a field name of that type. -/
def wellTypedKeys (allowed : List String) (o : JsObject) : Bool :=
  nodupKeys o && o.all (fun p => allowed.contains p.1)

/-- A sample constructed client for concrete witness evaluations. -/
def sampleExa : Exa :=
  ⟨constantsBaseUrl, ⟨"test-key", constantsContentType, constantsUserAgent⟩⟩

/-- A sample transport answering every request with an ok empty-object
response, for concrete witness evaluations. -/
def sampleOkTransport : Transport :=
  fun _ => ⟨true, 200, JsonValue.obj []⟩

/-- A second sample transport, distinguishable from the first, for stating
that an outcome does not depend on the transport. -/
def sampleFailTransport : Transport :=
  fun _ => ⟨false, 500, JsonValue.obj []⟩

/-- The success body of the claim about verbatim resolution: one result with
a title, a url and an id. -/
def sampleResultsBody : JsonValue :=
  JsonValue.obj
    [("results",
      JsonValue.arr
        [JsonValue.obj
          [("title", JsonValue.str "T"), ("url", JsonValue.str "u"),
           ("id", JsonValue.str "1")]])]

/-- A transport answering every request with an ok response carrying the
sample results body, for concrete witness evaluations. -/
def sampleResultsTransport : Transport :=
  fun _ => ⟨true, 200, sampleResultsBody⟩

/-- The concrete failure response of the request-error claim: status 401 with
a body whose error field says bad key. -/
def sampleErrorResponse : HttpResponse :=
  ⟨false, 401, JsonValue.obj [("error", JsonValue.str "bad key")]⟩

theorem hasField_nil (k : String) : hasField [] k = false := rfl

theorem hasField_cons (k1 : String) (v : JsonValue) (rest : JsObject)
    (k : String) :
    hasField ((k1, v) :: rest) k = ((k1 == k) || hasField rest k) := by
  simp [hasField, List.any_cons]

theorem hasField_append (a b : JsObject) (k : String) :
    hasField (a ++ b) k = (hasField a k || hasField b k) := by
  simp [hasField, List.any_append]

theorem lookupField_eq_none (o : JsObject) (k : String)
    (h : hasField o k = false) : lookupField o k = none := by
  induction o with
  | nil => rfl
  | cons p rest ih =>
    obtain ⟨k1, v⟩ := p
    rw [hasField_cons] at h
    simp only [Bool.or_eq_false_iff] at h
    simp [lookupField, h.1, ih h.2]

theorem setField_of_not_has (o : JsObject) (k : String) (v : JsonValue)
    (h : hasField o k = false) : setField o k v = o ++ [(k, v)] := by
  simp [setField, h]

theorem spreadInto_append (extra : JsObject) :
    ∀ o : JsObject, extra.all (fun p => !hasField o p.1) = true →
      nodupKeys extra = true → spreadInto o extra = o ++ extra := by
  induction extra with
  | nil => intro o _ _; simp [spreadInto]
  | cons p rest ih =>
    intro o hdisj hnodup
    obtain ⟨k, v⟩ := p
    simp only [List.all_cons, Bool.and_eq_true, Bool.not_eq_true'] at hdisj
    simp only [nodupKeys, Bool.and_eq_true, Bool.not_eq_true'] at hnodup
    have hstep : spreadInto o ((k, v) :: rest) =
        spreadInto (o ++ [(k, v)]) rest := by
      simp [spreadInto, List.foldl_cons, setField_of_not_has o k v hdisj.1]
    rw [hstep, ih (o ++ [(k, v)]) ?_ hnodup.2]
    · simp
    · rw [List.all_eq_true] at hdisj ⊢
      intro p hp
      have h1 := hdisj.2 p hp
      have h2 : (p.1 == k) = false := by
        cases hpk : (p.1 == k) with
        | false => rfl
        | true =>
          exfalso
          have hany : rest.any (fun q => q.1 == k) = true :=
            List.any_eq_true.mpr ⟨p, hp, hpk⟩
          rw [hnodup.1] at hany
          exact Bool.false_ne_true hany
      have hne : p.1 ≠ k := by simpa using h2
      simp only [Bool.not_eq_true', hasField_append, Bool.or_eq_false_iff]
      refine ⟨by simpa using h1, ?_⟩
      rw [hasField_cons, hasField_nil]
      simp only [Bool.or_false]
      simpa using Ne.symm hne

theorem all_not_hasField_of_disjoint (base o : JsObject) (allowed : List String)
    (hw : o.all (fun p => allowed.contains p.1) = true)
    (hb : base.all (fun q => !(allowed.contains q.1)) = true) :
    o.all (fun p => !hasField base p.1) = true := by
  rw [List.all_eq_true] at hw hb ⊢
  intro p hp
  have hmem : allowed.contains p.1 = true := hw p hp
  cases hf : hasField base p.1 with
  | false => simp
  | true =>
    exfalso
    simp only [hasField] at hf
    obtain ⟨q, hq, hqk⟩ := List.any_eq_true.mp hf
    have heq : q.1 = p.1 := by simpa using hqk
    have hq2 := hb q hq
    rw [heq, hmem] at hq2
    simp at hq2

theorem spreadInto_base_append (base o : JsObject) (allowed : List String)
    (hw : wellTypedKeys allowed o = true)
    (hb : base.all (fun q => !(allowed.contains q.1)) = true) :
    spreadInto base o = base ++ o := by
  simp only [wellTypedKeys, Bool.and_eq_true] at hw
  exact spreadInto_append o base
    (all_not_hasField_of_disjoint base o allowed hw.2 hb) hw.1

theorem any_filter_false {α : Type} (l : List α) (p f : α → Bool)
    (h : l.any p = false) : (l.filter f).any p = false := by
  cases hc : (l.filter f).any p with
  | false => rfl
  | true =>
    exfalso
    obtain ⟨x, hx, hpx⟩ := List.any_eq_true.mp hc
    have hxl : x ∈ l := List.mem_of_mem_filter hx
    have : l.any p = true := List.any_eq_true.mpr ⟨x, hxl, hpx⟩
    rw [h] at this
    exact Bool.false_ne_true this

theorem nodupKeys_filter (o : JsObject) (f : String × JsonValue → Bool)
    (h : nodupKeys o = true) : nodupKeys (o.filter f) = true := by
  induction o with
  | nil => exact h
  | cons p rest ih =>
    obtain ⟨k, v⟩ := p
    simp only [nodupKeys, Bool.and_eq_true, Bool.not_eq_true'] at h
    rw [List.filter_cons]
    cases hf : f (k, v) with
    | false => simpa using ih h.2
    | true =>
      simp only [if_true]
      simp only [nodupKeys, Bool.and_eq_true, Bool.not_eq_true']
      exact ⟨any_filter_false rest (fun p => p.1 == k) f h.1, ih h.2⟩

theorem all_filter_of_all {α : Type} (l : List α) (p f : α → Bool)
    (h : l.all p = true) : (l.filter f).all p = true := by
  rw [List.all_eq_true] at h ⊢
  intro x hx
  exact h x (List.mem_of_mem_filter hx)

theorem wellTypedKeys_removeFields (allowed : List String) (o : JsObject)
    (keys : List String) (hw : wellTypedKeys allowed o = true) :
    wellTypedKeys allowed (removeFields o keys) = true := by
  simp only [wellTypedKeys, Bool.and_eq_true] at hw ⊢
  exact ⟨nodupKeys_filter o _ hw.1, all_filter_of_all o _ _ hw.2⟩

theorem hasField_removeFields (o : JsObject) (keys : List String) (k : String)
    (hk : keys.contains k = true) :
    hasField (removeFields o keys) k = false := by
  cases hc : hasField (removeFields o keys) k with
  | false => rfl
  | true =>
    exfalso
    simp only [hasField] at hc
    obtain ⟨p, hp, hpk⟩ := List.any_eq_true.mp hc
    have hmem := List.mem_filter.mp hp
    have heq : p.1 = k := by simpa using hpk
    have hkeep := hmem.2
    rw [heq, hk] at hkeep
    simp at hkeep

/-- Claim C3: for every call to search, findSimilar or getContents with a
well-typed options object, the request body field set is exactly the union of
the mandatory key (query, url or ids respectively) and the caller-supplied
option fields, each option field carrying the caller value unchanged, with no
other fields added. -/
theorem claim_C3 (query url : String) (searchOpts similarOpts contOpts : JsObject)
    (ids : IdsInput)
    (h1 : wellTypedKeys regularSearchOptionKeys searchOpts = true)
    (h2 : wellTypedKeys findSimilarOptionKeys similarOpts = true)
    (h3 : wellTypedKeys contentsOptionKeys contOpts = true)
    (hids : ids.jsLength ≠ 0) :
    searchBody query searchOpts =
      ("query", JsonValue.str query) :: searchOpts ∧
    findSimilarBody url similarOpts =
      ("url", JsonValue.str url) :: similarOpts ∧
    getContentsBody ids contOpts =
      Except.ok
        (("ids", JsonValue.arr (ids.normalize.map JsonValue.str)) :: contOpts) := by
  refine ⟨?_, ?_, ?_⟩
  · have hb : [("query", JsonValue.str query)].all
        (fun q => !(regularSearchOptionKeys.contains q.1)) = true := by
      simp [regularSearchOptionKeys]
    simpa [searchBody] using
      spreadInto_base_append [("query", JsonValue.str query)] searchOpts
        regularSearchOptionKeys h1 hb
  · have hb : [("url", JsonValue.str url)].all
        (fun q => !(findSimilarOptionKeys.contains q.1)) = true := by
      simp [findSimilarOptionKeys]
    simpa [findSimilarBody] using
      spreadInto_base_append [("url", JsonValue.str url)] similarOpts
        findSimilarOptionKeys h2 hb
  · have hlen : (ids.jsLength == 0) = false := by simpa using hids
    have hb : [("ids", JsonValue.arr (ids.normalize.map JsonValue.str))].all
        (fun q => !(contentsOptionKeys.contains q.1)) = true := by
      simp [contentsOptionKeys]
    rw [getContentsBody, hlen]
    simp only [Bool.false_eq_true, if_false]
    rw [spreadInto_base_append _ contOpts contentsOptionKeys h3 hb]
    rfl

/-- Claim C2: for every non-empty input, getContents normalizes the three
accepted shapes of its ids argument (a single identifier string, a list of
identifier strings, a list of SearchResult objects) to the same flat list of
identifier strings in the request body: the string s becomes the singleton
list of s, a string list passes through unchanged, and an object list maps to
the id fields of its elements in order. -/
theorem claim_C2 (s : String) (xs : List String) (rs : List SearchResult)
    (o : JsObject) (hs : s ≠ "") (hxs : xs ≠ []) (hrs : rs ≠ [])
    (hw : wellTypedKeys contentsOptionKeys o = true) :
    getContentsBody (IdsInput.single s) o =
      Except.ok (("ids", JsonValue.arr [JsonValue.str s]) :: o) ∧
    getContentsBody (IdsInput.strList xs) o =
      Except.ok (("ids", JsonValue.arr (xs.map JsonValue.str)) :: o) ∧
    getContentsBody (IdsInput.resultList rs) o =
      Except.ok
        (("ids", JsonValue.arr (rs.map (fun r => JsonValue.str r.id))) :: o) := by
  have hb : ∀ v : JsonValue,
      [("ids", v)].all (fun q => !(contentsOptionKeys.contains q.1)) = true := by
    intro v; simp [contentsOptionKeys]
  refine ⟨?_, ?_, ?_⟩
  · have hlen : ((IdsInput.single s).jsLength == 0) = false := by
      simp [IdsInput.jsLength]
      intro hc
      exact hs (String.ext (by simpa [String.length] using List.length_eq_zero.mp hc))
    rw [getContentsBody, hlen]
    simp only [Bool.false_eq_true, if_false]
    rw [spreadInto_base_append _ o contentsOptionKeys hw (hb _)]
    rfl
  · have hlen : ((IdsInput.strList xs).jsLength == 0) = false := by
      simpa [IdsInput.jsLength] using hxs
    rw [getContentsBody, hlen]
    simp only [Bool.false_eq_true, if_false]
    rw [spreadInto_base_append _ o contentsOptionKeys hw (hb _)]
    rfl
  · have hlen : ((IdsInput.resultList rs).jsLength == 0) = false := by
      simpa [IdsInput.jsLength] using hrs
    rw [getContentsBody, hlen]
    simp only [Bool.false_eq_true, if_false]
    rw [spreadInto_base_append _ o contentsOptionKeys hw (hb _)]
    simp [IdsInput.normalize]

theorem searchAndContentsKeys_base (query : String) (c : JsonValue) :
    [("query", JsonValue.str query), ("contents", c)].all
      (fun q =>
        !((regularSearchOptionKeys ++ contentsOptionKeys).contains q.1)) =
      true := by
  simp [regularSearchOptionKeys, contentsOptionKeys]

theorem findSimilarAndContentsKeys_base (url : String) (c : JsonValue) :
    [("url", JsonValue.str url), ("contents", c)].all
      (fun q =>
        !((findSimilarOptionKeys ++ contentsOptionKeys).contains q.1)) =
      true := by
  simp [findSimilarOptionKeys, contentsOptionKeys]

theorem searchAndContentsBody_split (query : String) (o : JsObject)
    (hw : wellTypedKeys (regularSearchOptionKeys ++ contentsOptionKeys) o = true) :
    searchAndContentsBody query o =
      ("query", JsonValue.str query) ::
      ("contents",
        contentsObject (lookupField o "text") (lookupField o "highlights")) ::
      removeFields o ["text", "highlights"] := by
  rw [searchAndContentsBody,
    spreadInto_base_append _ _ (regularSearchOptionKeys ++ contentsOptionKeys)
      (wellTypedKeys_removeFields _ o _ hw) (searchAndContentsKeys_base query _)]
  rfl

theorem findSimilarAndContentsBody_split (url : String) (o : JsObject)
    (hw : wellTypedKeys (findSimilarOptionKeys ++ contentsOptionKeys) o = true) :
    findSimilarAndContentsBody url o =
      ("url", JsonValue.str url) ::
      ("contents",
        contentsObject (lookupField o "text") (lookupField o "highlights")) ::
      removeFields o ["text", "highlights"] := by
  rw [findSimilarAndContentsBody,
    spreadInto_base_append _ _ (findSimilarOptionKeys ++ contentsOptionKeys)
      (wellTypedKeys_removeFields _ o _ hw) (findSimilarAndContentsKeys_base url _)]
  rfl

/-- Claim C1: for every call to searchAndContents or findSimilarAndContents
whose options supply neither a text key nor a highlights key (including the
omitted-options case, the empty object), the outgoing body contains the field
contents holding the object with text set to true, and contains no text or
highlights keys at the top level. -/
theorem claim_C1 (query url : String) (o1 o2 : JsObject)
    (hw1 : wellTypedKeys (regularSearchOptionKeys ++ contentsOptionKeys) o1 = true)
    (hw2 : wellTypedKeys (findSimilarOptionKeys ++ contentsOptionKeys) o2 = true)
    (ht1 : hasField o1 "text" = false) (hh1 : hasField o1 "highlights" = false)
    (ht2 : hasField o2 "text" = false) (hh2 : hasField o2 "highlights" = false) :
    (lookupField (searchAndContentsBody query o1) "contents" =
        some (JsonValue.obj [("text", JsonValue.bool true)]) ∧
      hasField (searchAndContentsBody query o1) "text" = false ∧
      hasField (searchAndContentsBody query o1) "highlights" = false) ∧
    (lookupField (findSimilarAndContentsBody url o2) "contents" =
        some (JsonValue.obj [("text", JsonValue.bool true)]) ∧
      hasField (findSimilarAndContentsBody url o2) "text" = false ∧
      hasField (findSimilarAndContentsBody url o2) "highlights" = false) := by
  refine ⟨?_, ?_⟩
  · rw [searchAndContentsBody_split query o1 hw1,
      lookupField_eq_none o1 "text" ht1, lookupField_eq_none o1 "highlights" hh1]
    refine ⟨by simp [lookupField, contentsObject, optTruthy], ?_, ?_⟩
    · rw [show (("query", JsonValue.str query) ::
          ("contents", contentsObject none none) ::
          removeFields o1 ["text", "highlights"]) =
          ([("query", JsonValue.str query),
            ("contents", contentsObject none none)] ++
            removeFields o1 ["text", "highlights"]) from rfl,
        hasField_append,
        hasField_removeFields o1 ["text", "highlights"] "text" (by decide)]
      simp [hasField]
    · rw [show (("query", JsonValue.str query) ::
          ("contents", contentsObject none none) ::
          removeFields o1 ["text", "highlights"]) =
          ([("query", JsonValue.str query),
            ("contents", contentsObject none none)] ++
            removeFields o1 ["text", "highlights"]) from rfl,
        hasField_append,
        hasField_removeFields o1 ["text", "highlights"] "highlights" (by decide)]
      simp [hasField]
  · rw [findSimilarAndContentsBody_split url o2 hw2,
      lookupField_eq_none o2 "text" ht2, lookupField_eq_none o2 "highlights" hh2]
    refine ⟨by simp [lookupField, contentsObject, optTruthy], ?_, ?_⟩
    · rw [show (("url", JsonValue.str url) ::
          ("contents", contentsObject none none) ::
          removeFields o2 ["text", "highlights"]) =
          ([("url", JsonValue.str url),
            ("contents", contentsObject none none)] ++
            removeFields o2 ["text", "highlights"]) from rfl,
        hasField_append,
        hasField_removeFields o2 ["text", "highlights"] "text" (by decide)]
      simp [hasField]
    · rw [show (("url", JsonValue.str url) ::
          ("contents", contentsObject none none) ::
          removeFields o2 ["text", "highlights"]) =
          ([("url", JsonValue.str url),
            ("contents", contentsObject none none)] ++
            removeFields o2 ["text", "highlights"]) from rfl,
        hasField_append,
        hasField_removeFields o2 ["text", "highlights"] "highlights" (by decide)]
      simp [hasField]

/-- Claim C4: for every searchAndContents call supplying at least one of the
text and highlights keys (each supplied value truthy, as every well-typed
value of these fields is), the request body nests exactly the supplied
content keys under contents and contains no text or highlights keys at the
top level; the call with text set to true and highlights an object with
numSentences one yields exactly those two entries nested. -/
theorem claim_C4 (query : String) (o : JsObject) (tv hv : Option JsonValue)
    (hw : wellTypedKeys (regularSearchOptionKeys ++ contentsOptionKeys) o = true)
    (ht : lookupField o "text" = tv) (hh : lookupField o "highlights" = hv)
    (htruthy : (optTruthy tv || optTruthy hv) = true) :
    lookupField (searchAndContentsBody query o) "contents" =
      some (JsonValue.obj
        (truthyEntry "text" tv ++ truthyEntry "highlights" hv)) ∧
    hasField (searchAndContentsBody query o) "text" = false ∧
    hasField (searchAndContentsBody query o) "highlights" = false := by
  rw [searchAndContentsBody_split query o hw, ht, hh]
  have hcond : (!optTruthy tv && !optTruthy hv) = false := by
    rw [← Bool.not_or, htruthy]
    rfl
  have hcontents : contentsObject tv hv =
      JsonValue.obj (truthyEntry "text" tv ++ truthyEntry "highlights" hv) := by
    rw [contentsObject, hcond]
    rfl
  rw [hcontents]
  refine ⟨by simp [lookupField], ?_, ?_⟩
  · rw [show (("query", JsonValue.str query) ::
        ("contents",
          JsonValue.obj (truthyEntry "text" tv ++ truthyEntry "highlights" hv)) ::
        removeFields o ["text", "highlights"]) =
        ([("query", JsonValue.str query),
          ("contents",
            JsonValue.obj (truthyEntry "text" tv ++ truthyEntry "highlights" hv))] ++
          removeFields o ["text", "highlights"]) from rfl,
      hasField_append,
      hasField_removeFields o ["text", "highlights"] "text" (by decide)]
    simp [hasField]
  · rw [show (("query", JsonValue.str query) ::
        ("contents",
          JsonValue.obj (truthyEntry "text" tv ++ truthyEntry "highlights" hv)) ::
        removeFields o ["text", "highlights"]) =
        ([("query", JsonValue.str query),
          ("contents",
            JsonValue.obj (truthyEntry "text" tv ++ truthyEntry "highlights" hv))] ++
          removeFields o ["text", "highlights"]) from rfl,
      hasField_append,
      hasField_removeFields o ["text", "highlights"] "highlights" (by decide)]
    simp [hasField]

/-- Claim C5: getContents applied to the empty list throws the input error
(Must provide at least one ID) before issuing any network call: the outcome
is the error and is independent of the transport, which is never consulted. -/
theorem claim_C5 (e : Exa) (o : JsObject) (t1 t2 : Transport) :
    Exa.getContents e (IdsInput.strList []) o t1 =
      Except.error emptyIdsErrorMessage ∧
    Exa.getContents e (IdsInput.strList []) o t1 =
      Exa.getContents e (IdsInput.strList []) o t2 := by
  exact ⟨rfl, rfl⟩

/-- Claim C9: getContents applied to the empty string as its single-identifier
input also throws the input error before any network call, because the
emptiness check reads the length property, which the empty string satisfies
like the empty list; and every ids input of length zero yields that error
independently of the transport, so no call path sends a body derived from an
empty input. -/
theorem claim_C9 (e : Exa) (o : JsObject) (t1 t2 : Transport) :
    Exa.getContents e (IdsInput.single "") o t1 =
      Except.error emptyIdsErrorMessage ∧
    Exa.getContents e (IdsInput.single "") o t1 =
      Exa.getContents e (IdsInput.single "") o t2 ∧
    (∀ ids : IdsInput, ids.jsLength = 0 →
      Exa.getContents e ids o t1 = Except.error emptyIdsErrorMessage ∧
      Exa.getContents e ids o t1 = Exa.getContents e ids o t2) := by
  refine ⟨rfl, rfl, ?_⟩
  intro ids h
  have hc : (ids.jsLength == 0) = true := by simpa using h
  constructor <;>
    simp [Exa.getContents, Exa.getContentsRequest, getContentsBody, hc]

/-- Claim C6: constructing a client with no apiKey argument when the
environment variable EXASEARCH_API_KEY is also unset throws the configuration
error before any network call (construction is pure and transport-free); when
either source supplies a non-empty key, construction succeeds with the fixed
header set (API-key header, fixed content-type, fixed user-agent), and every
subsequent request of every operation carries the stored headers unchanged. -/
theorem claim_C6 (k b query url : String) (env : Option String) (hk : k ≠ "")
    (e : Exa) (o : JsObject) (ids : IdsInput) :
    mkExa none none b = Except.error apiKeyErrorMessage ∧
    mkExa (some k) env b =
      Except.ok ⟨b, ⟨k, constantsContentType, constantsUserAgent⟩⟩ ∧
    mkExa none (some k) b =
      Except.ok ⟨b, ⟨k, constantsContentType, constantsUserAgent⟩⟩ ∧
    (Exa.searchRequest e query o).headers = e.headers ∧
    (Exa.findSimilarRequest e url o).headers = e.headers ∧
    (Exa.searchAndContentsRequest e query o).headers = e.headers ∧
    (Exa.findSimilarAndContentsRequest e url o).headers = e.headers ∧
    (∀ req : HttpRequest,
      Exa.getContentsRequest e ids o = Except.ok req →
      req.headers = e.headers) := by
  have hkb : (k == "") = false := by simpa using hk
  refine ⟨rfl, ?_, ?_, rfl, rfl, rfl, rfl, ?_⟩
  · simp [mkExa, jsOrString, hkb]
  · simp [mkExa, jsOrString, hkb]
  · intro req hreq
    rw [Exa.getContentsRequest] at hreq
    cases hb : getContentsBody ids o with
    | error m => rw [hb] at hreq; exact absurd hreq (by simp)
    | ok body =>
      rw [hb] at hreq
      simp only [Except.ok.injEq] at hreq
      rw [← hreq]
      rfl

/-- Claim C7: for every operation (all of which route their response through
the shared handler), a response with a non-success status whose JSON body has
an error field fails with a request error whose message contains both the
numeric status code and that error-field message: the message is exactly the
status and the field message joined by the fixed frame, exhibited with the
status in prefix-suffix position. -/
theorem claim_C7 (s : Nat) (msg : String) (fields : JsObject)
    (resp : HttpResponse) (hok : resp.ok = false) (hst : resp.status = s)
    (hb : resp.body = JsonValue.obj fields)
    (hf : lookupField fields "error" = some (JsonValue.str msg)) :
    handleResponse resp =
      Except.error
        ("Request failed with status " ++ toString s ++ ". " ++ msg) ∧
    (∃ a b2 : String, handleResponse resp =
      Except.error (a ++ (toString s ++ b2)) ∧ b2 = ". " ++ msg) ∧
    (∀ (e : Exa) (q : String) (o : JsObject) (tr : Transport),
      Exa.search e q o tr = handleResponse (tr (e.searchRequest q o))) ∧
    (∀ (e : Exa) (u : String) (o : JsObject) (tr : Transport),
      Exa.findSimilar e u o tr =
        handleResponse (tr (e.findSimilarRequest u o))) ∧
    (∀ (e : Exa) (q : String) (o : JsObject) (tr : Transport),
      Exa.searchAndContents e q o tr =
        handleResponse (tr (e.searchAndContentsRequest q o))) ∧
    (∀ (e : Exa) (u : String) (o : JsObject) (tr : Transport),
      Exa.findSimilarAndContents e u o tr =
        handleResponse (tr (e.findSimilarAndContentsRequest u o))) ∧
    (∀ (e : Exa) (ids : IdsInput) (o : JsObject) (tr : Transport)
      (req : HttpRequest),
      Exa.getContentsRequest e ids o = Except.ok req →
      Exa.getContents e ids o tr = handleResponse (tr req)) := by
  have hmain : handleResponse resp =
      Except.error
        ("Request failed with status " ++ toString s ++ ". " ++ msg) := by
    rw [handleResponse, hok, hb]
    simp only [Bool.false_eq_true, if_false, readErrorField, hf]
    rw [interpolateOpt, hst]
    simp [interpolate, String.append_assoc]
  refine ⟨hmain, ?_, fun _ _ _ _ => rfl, fun _ _ _ _ => rfl,
    fun _ _ _ _ => rfl, fun _ _ _ _ => rfl, ?_⟩
  · refine ⟨"Request failed with status ", ". " ++ msg, ?_, rfl⟩
    rw [hmain]
    simp [String.append_assoc]
  · intro e ids o tr req hreq
    rw [Exa.getContents, hreq]

/-- Claim C8: for every call to search, an ok response is resolved verbatim as
the call return value: the client performs no transformation, filtering or
validation of the parsed success body. -/
theorem claim_C8 (e : Exa) (query : String) (o : JsObject) (tr : Transport)
    (hok : (tr (e.searchRequest query o)).ok = true) :
    Exa.search e query o tr =
      Except.ok (tr (e.searchRequest query o)).body := by
  rw [Exa.search, handleResponse, hok]
  simp

/-- Claim C10: constructing a client with the empty string as the apiKey
argument behaves exactly like omitting the argument: the credential falls
back through the truthiness or-operator to the environment variable, and when
that is also unset the constructor throws the configuration error even though
an argument was supplied. -/
theorem claim_C10 (env : Option String) (b : String) :
    mkExa (some "") env b = mkExa none env b ∧
    mkExa (some "") none b = Except.error apiKeyErrorMessage := by
  constructor
  · simp [mkExa, jsOrString]
  · rfl

/-- Witness for claim C1 at a concrete call: options with one plain search
field and no content keys yield the default contents object. -/
theorem claim_C1_witness :
    lookupField
      (searchAndContentsBody "q" [("numResults", JsonValue.num 2)])
      "contents" = some (JsonValue.obj [("text", JsonValue.bool true)]) :=
  (claim_C1 "q" "u" [("numResults", JsonValue.num 2)] [] (by decide)
    (by decide) (by decide) (by decide) (by decide) (by decide)).1.1

/-- Witness for claim C2 at the concrete string-list shape of the spec
example. -/
theorem claim_C2_witness :
    getContentsBody (IdsInput.strList ["id1", "id2"]) [] =
      Except.ok
        [("ids", JsonValue.arr [JsonValue.str "id1", JsonValue.str "id2"])] :=
  (claim_C2 "id1" ["id1", "id2"]
    [⟨some "t", "u", none, none, none, "id1"⟩] [] (by decide) (by decide)
    (List.cons_ne_nil _ _) (by decide)).2.1

/-- Witness for claim C3 at a concrete search call with one option field. -/
theorem claim_C3_witness :
    searchBody "q" [("numResults", JsonValue.num 2)] =
      [("query", JsonValue.str "q"), ("numResults", JsonValue.num 2)] :=
  (claim_C3 "q" "u" [("numResults", JsonValue.num 2)]
    [("excludeSourceDomain", JsonValue.bool true)]
    [("text", JsonValue.bool true)] (IdsInput.single "id1") (by decide)
    (by decide) (by decide) (by decide)).1

/-- Witness for claim C4 at the concrete call of the claim: text set to true
and highlights an object with numSentences one. -/
theorem claim_C4_witness :
    lookupField
      (searchAndContentsBody "q"
        [("text", JsonValue.bool true),
         ("highlights", JsonValue.obj [("numSentences", JsonValue.num 1)])])
      "contents" =
      some (JsonValue.obj
        [("text", JsonValue.bool true),
         ("highlights", JsonValue.obj [("numSentences", JsonValue.num 1)])]) :=
  (claim_C4 "q"
    [("text", JsonValue.bool true),
     ("highlights", JsonValue.obj [("numSentences", JsonValue.num 1)])]
    (some (JsonValue.bool true))
    (some (JsonValue.obj [("numSentences", JsonValue.num 1)]))
    (by decide) rfl rfl (by decide)).1

/-- Witness for claim C6 at a concrete key: construction from the argument
succeeds with the fixed header set. -/
theorem claim_C6_witness :
    mkExa (some "test-key") none constantsBaseUrl =
      Except.ok
        ⟨constantsBaseUrl,
          ⟨"test-key", constantsContentType, constantsUserAgent⟩⟩ :=
  (claim_C6 "test-key" constantsBaseUrl "q" "u" none (by decide) sampleExa []
    (IdsInput.single "id1")).2.1

/-- Witness for claim C7 at the concrete 401 response with the bad-key error
body: the thrown message contains both 401 and bad key. -/
theorem claim_C7_witness :
    handleResponse sampleErrorResponse =
      Except.error
        ("Request failed with status " ++ toString 401 ++ ". " ++ "bad key") :=
  (claim_C7 401 "bad key" [("error", JsonValue.str "bad key")]
    sampleErrorResponse rfl rfl rfl rfl).1

/-- Witness for claim C8 at the concrete success body of the claim, resolved
verbatim by search. -/
theorem claim_C8_witness :
    Exa.search sampleExa "q" [] sampleResultsTransport =
      Except.ok sampleResultsBody :=
  claim_C8 sampleExa "q" [] sampleResultsTransport rfl

/-- Witness for claim C9 at the concrete empty string input. -/
theorem claim_C9_witness :
    Exa.getContents sampleExa (IdsInput.single "") [] sampleOkTransport =
      Except.error emptyIdsErrorMessage :=
  ((claim_C9 sampleExa [] sampleOkTransport sampleFailTransport).2.2
    (IdsInput.single "") rfl).1
